import Mathlib

/-!
Shallow embedding of the resilience core of the zally-mcp-server repository:
the `CircuitBreaker` state machine (src/circuitbreaker/circuitBreaker.ts),
the `RetryManager` retry loop and backoff computation
(src/circuitbreaker/retry.ts), and the error classification of
`ApiLinterHTTPClient.handleError` (src/utils/apiLinterHttpClient.ts).

Modelling conventions:
* `Date.now()` is replaced by an explicit `now : Nat` argument (milliseconds).
* A wrapped asynchronous operation is modelled by the outcome it would
  produce when invoked: an `Except ε α` value (`.ok` = the promise resolves,
  `.error` = it rejects).  For the retry loop, which may invoke the operation
  several times, the operation is a function from the 0-based attempt index
  to its outcome on that attempt.
* The `setTimeout`/`clearTimeout` handle `circuitResetTimeout` is modelled as
  `Option Nat` holding the scheduled fire time (`none` = no pending timer);
  scheduling replaces the old timer, mirroring the clear-then-schedule in the
  source.  Timer firings are asynchronous events and are not part of the
  `execute` call sequences studied here.
* JavaScript numbers in the backoff computation are modelled as rationals;
  `Math.random()` becomes an explicit parameter `rand` with `0 ≤ rand < 1`.
* The awaited delay inside the retry loop suspends execution but does not
  affect the returned value or the number of invocations, so `executeWithRetry`
  returns the operation result together with the invocation count, and the
  delay amount is embedded separately as `calculateDelay`.
-/

namespace Zally

/-- States of the circuit breaker (enum `CircuitBreakerState`). -/
inductive CircuitBreakerState where
  | CLOSED
  | OPEN
  | HALF_OPEN
deriving DecidableEq, Repr

/-- Configuration options (`CircuitBreakerOptions`); the `name` field is
logging-only and is kept for the circuit-open error message. -/
structure CircuitBreakerOptions where
  failureThreshold : Nat
  resetTimeout : Nat
  name : String
deriving DecidableEq, Repr

/-- Defaults from `DEFAULT_OPTIONS` in circuitBreaker.ts. -/
def defaultCircuitBreakerOptions : CircuitBreakerOptions :=
  { failureThreshold := 5, resetTimeout := 30000, name := "default" }

/-- Mutable state of one `CircuitBreaker` instance: `state`, `failureCount`,
`nextAttempt`, and the pending scheduled OPEN→HALF_OPEN transition
(`circuitResetTimeout`, kept as its scheduled fire time). -/
structure CircuitBreaker where
  state : CircuitBreakerState
  failureCount : Nat
  nextAttempt : Nat
  circuitResetTimeout : Option Nat
deriving DecidableEq, Repr

/-- A freshly constructed breaker: CLOSED, zero failures,
`nextAttempt = Date.now()` at construction time, no pending timer. -/
def CircuitBreaker.init (now : Nat) : CircuitBreaker :=
  { state := .CLOSED, failureCount := 0, nextAttempt := now,
    circuitResetTimeout := none }

/-- `CircuitBreaker.transitionToState`: no-op when the state is unchanged;
on entering OPEN, sets `nextAttempt = now + resetTimeout`, clears any pending
timer and schedules a new HALF_OPEN transition after `resetTimeout`. -/
def transitionToState (opts : CircuitBreakerOptions) (now : Nat)
    (cb : CircuitBreaker) (newState : CircuitBreakerState) : CircuitBreaker :=
  if newState = cb.state then cb
  else
    let cb := { cb with state := newState }
    if newState = .OPEN then
      { cb with nextAttempt := now + opts.resetTimeout,
                circuitResetTimeout := some (now + opts.resetTimeout) }
    else cb

/-- `CircuitBreaker.recordFailure`: increment `failureCount`; a failure in
HALF_OPEN reopens the circuit, and otherwise the circuit opens once
`failureCount >= failureThreshold`. -/
def recordFailure (opts : CircuitBreakerOptions) (now : Nat)
    (cb : CircuitBreaker) : CircuitBreaker :=
  let cb := { cb with failureCount := cb.failureCount + 1 }
  if cb.state = .HALF_OPEN then
    transitionToState opts now cb .OPEN
  else if cb.failureCount ≥ opts.failureThreshold then
    transitionToState opts now cb .OPEN
  else cb

/-- `CircuitBreaker.reset`: zero the failure count, transition to CLOSED and
clear any scheduled state change. -/
def reset (opts : CircuitBreakerOptions) (now : Nat)
    (cb : CircuitBreaker) : CircuitBreaker :=
  let cb := { cb with failureCount := 0 }
  let cb := transitionToState opts now cb .CLOSED
  { cb with circuitResetTimeout := none }

/-- The open-circuit check at the top of `CircuitBreaker.execute`:
`none` means the call is rejected (circuit open, reset timeout not elapsed);
`some cb` is the breaker state with which the operation proceeds
(after the OPEN→HALF_OPEN transition when the timeout has elapsed). -/
def openGate (opts : CircuitBreakerOptions) (now : Nat)
    (cb : CircuitBreaker) : Option CircuitBreaker :=
  if cb.state = .OPEN then
    if now < cb.nextAttempt then none
    else some (transitionToState opts now cb .HALF_OPEN)
  else some cb

/-- Failure observed by a caller of `CircuitBreaker.execute`: either the
synthetic circuit-open rejection (the thrown
`Error('Circuit breaker [name] is open')`) or the rethrown operation error. -/
inductive CBError (ε : Type) where
  | circuitOpen
  | opError (e : ε)
deriving DecidableEq, Repr

/-- Result of one `CircuitBreaker.execute` call: the value returned or error
thrown, the breaker state afterwards, and whether `fn` was invoked. -/
structure ExecOutcome (ε α : Type) where
  result : Except (CBError ε) α
  cb : CircuitBreaker
  invoked : Bool
deriving Repr

/-- `CircuitBreaker.execute fn` at time `now`, where `fnOutcome` is what the
wrapped operation produces if it is invoked: reject while OPEN before
`nextAttempt`; otherwise run the operation, resetting on a HALF_OPEN success
and recording any failure. -/
def execute (opts : CircuitBreakerOptions) (now : Nat)
    (cb : CircuitBreaker) (fnOutcome : Except ε α) : ExecOutcome ε α :=
  match openGate opts now cb with
  | none => { result := .error .circuitOpen, cb := cb, invoked := false }
  | some cb1 =>
    match fnOutcome with
    | .ok v =>
        { result := .ok v,
          cb := if cb1.state = .HALF_OPEN then reset opts now cb1 else cb1,
          invoked := true }
    | .error e =>
        { result := .error (.opError e),
          cb := recordFailure opts now cb1, invoked := true }

/-- Runs a sequence of `execute` calls, each given as the call time together
with the outcome the operation would produce, returning the final breaker. -/
def runCalls (opts : CircuitBreakerOptions) (cb : CircuitBreaker)
    (calls : List (Nat × Except ε α)) : CircuitBreaker :=
  calls.foldl (fun c p => (execute opts p.1 c p.2).cb) cb

/-- Configuration options (`RetryOptions` in retry.ts); the delay fields are
JavaScript numbers, modelled as rationals. -/
structure RetryOptions where
  maxRetries : Nat
  initialDelayMs : ℚ
  maxDelayMs : ℚ
  backoffFactor : ℚ
  jitter : Bool
deriving DecidableEq, Repr

/-- Defaults from `DEFAULT_OPTIONS` in retry.ts. -/
def defaultRetryOptions : RetryOptions :=
  { maxRetries := 3, initialDelayMs := 500, maxDelayMs := 5000,
    backoffFactor := 2, jitter := true }

/-- `RetryManager.calculateDelay` for retry attempt `attempt` (the loop
counter, ≥ 1 when a delay happens): exponential backoff
`initialDelayMs * backoffFactor ^ (attempt - 1)` capped at `maxDelayMs`;
with jitter, multiplied by `0.75 + Math.random() * 0.5` and floored, where
`rand` stands for the `Math.random()` draw. -/
def calculateDelay (opts : RetryOptions) (attempt : Nat) (rand : ℚ) : ℚ :=
  let delay := opts.initialDelayMs * opts.backoffFactor ^ (attempt - 1)
  let delay := min delay opts.maxDelayMs
  if opts.jitter then (⌊delay * (3/4 + rand * (1/2))⌋ : ℤ) else delay

/-- The `for (attempt = 0; attempt <= maxRetries; attempt++)` loop of
`RetryManager.executeWithRetry`, entered at loop counter `attempt` with
`remaining = maxRetries - attempt` further attempts allowed.  `fn k` is the
outcome of invoking the operation on (0-based) attempt `k`.  Returns the
value returned or last error thrown, with the number of invocations made
from this point on. -/
def retryLoop (fn : Nat → Except ε α) (attempt : Nat) :
    Nat → Except ε α × Nat
  | 0 =>
    match fn attempt with
    | .ok v => (.ok v, 1)
    | .error e => (.error e, 1)
  | remaining + 1 =>
    match fn attempt with
    | .ok v => (.ok v, 1)
    | .error _ =>
      let p := retryLoop fn (attempt + 1) remaining
      (p.1, p.2 + 1)

/-- `RetryManager.executeWithRetry`: the initial attempt plus up to
`maxRetries` retries; returns the operation result (or the last error,
unchanged) and how many times the operation was invoked. -/
def executeWithRetry (opts : RetryOptions) (fn : Nat → Except ε α) :
    Except ε α × Nat :=
  retryLoop fn 0 opts.maxRetries

/-- Does the character list `s` start with `p`?  (Helper for the model of
JavaScript's `String.prototype.includes`.) -/
def charsStartWith : List Char → List Char → Bool
  | [], _ => true
  | _ :: _, [] => false
  | a :: p, b :: s => a = b && charsStartWith p s

/-- Does `s` contain `p` as a contiguous run? -/
def charsInclude (p : List Char) : List Char → Bool
  | [] => charsStartWith p []
  | c :: s => charsStartWith p (c :: s) || charsInclude p s

/-- Model of `haystack.includes(needle)` on JavaScript strings. -/
def strIncludes (haystack needle : String) : Bool :=
  charsInclude needle.toList haystack.toList

/-- The message of the synthetic error thrown by `CircuitBreaker.execute`
when rejecting a call: `` `Circuit breaker [${name}] is open` ``. -/
def circuitOpenMessage (name : String) : String :=
  "Circuit breaker [" ++ name ++ "] is open"

/-- The test `error.message.includes('Circuit breaker')` by which
`ApiLinterHTTPClient.handleError` decides that a caught (non-Axios) error is
a circuit-breaker rejection and rewraps it as "Service unavailable". -/
def handleErrorTreatsAsBreakerOpen (message : String) : Bool :=
  strIncludes message "Circuit breaker"

/-! ### Helper lemmas about the breaker's primitive operations -/

theorem transitionToState_failureCount (opts : CircuitBreakerOptions)
    (now : Nat) (cb : CircuitBreaker) (s : CircuitBreakerState) :
    (transitionToState opts now cb s).failureCount = cb.failureCount := by
  unfold transitionToState
  split
  · rfl
  · split <;> rfl

theorem transitionToState_state (opts : CircuitBreakerOptions)
    (now : Nat) (cb : CircuitBreaker) (s : CircuitBreakerState) :
    (transitionToState opts now cb s).state = s := by
  unfold transitionToState
  split
  case isTrue h => exact h.symm
  case isFalse h => split <;> rfl

theorem transitionToState_to_open (opts : CircuitBreakerOptions)
    (now : Nat) (cb : CircuitBreaker) (h : cb.state ≠ .OPEN) :
    transitionToState opts now cb .OPEN =
      { state := .OPEN, failureCount := cb.failureCount,
        nextAttempt := now + opts.resetTimeout,
        circuitResetTimeout := some (now + opts.resetTimeout) } := by
  unfold transitionToState
  rw [if_neg (fun hs => h hs.symm), if_pos rfl]

theorem recordFailure_closed_low (opts : CircuitBreakerOptions) (now : Nat)
    (cb : CircuitBreaker) (h : cb.state = .CLOSED)
    (hlt : cb.failureCount + 1 < opts.failureThreshold) :
    recordFailure opts now cb = { cb with failureCount := cb.failureCount + 1 } := by
  have hc : ¬ (opts.failureThreshold ≤ cb.failureCount + 1) := by omega
  simp [recordFailure, h, hc]

theorem recordFailure_closed_trip (opts : CircuitBreakerOptions) (now : Nat)
    (cb : CircuitBreaker) (h : cb.state = .CLOSED)
    (hge : opts.failureThreshold ≤ cb.failureCount + 1) :
    recordFailure opts now cb =
      { state := .OPEN, failureCount := cb.failureCount + 1,
        nextAttempt := now + opts.resetTimeout,
        circuitResetTimeout := some (now + opts.resetTimeout) } := by
  simp only [recordFailure, h, hge, reduceCtorEq, if_false, if_true, ge_iff_le,
    if_pos hge]
  rw [transitionToState_to_open]
  simp

theorem openGate_not_open (opts : CircuitBreakerOptions) (now : Nat)
    (cb : CircuitBreaker) (h : cb.state ≠ .OPEN) :
    openGate opts now cb = some cb := by
  unfold openGate
  rw [if_neg h]

theorem execute_closed_ok (opts : CircuitBreakerOptions) (now : Nat)
    (cb : CircuitBreaker) (v : α) (h : cb.state = .CLOSED) :
    execute (ε := ε) opts now cb (.ok v) =
      { result := .ok v, cb := cb, invoked := true } := by
  unfold execute
  rw [openGate_not_open _ _ _ (by simp [h])]
  simp [h]

theorem execute_closed_err (opts : CircuitBreakerOptions) (now : Nat)
    (cb : CircuitBreaker) (e : ε) (h : cb.state = .CLOSED) :
    execute (α := α) opts now cb (.error e) =
      { result := .error (.opError e), cb := recordFailure opts now cb,
        invoked := true } := by
  unfold execute
  rw [openGate_not_open _ _ _ (by simp [h])]

theorem execute_open_rejected (opts : CircuitBreakerOptions) (now : Nat)
    (cb : CircuitBreaker) (fnOutcome : Except ε α) (h : cb.state = .OPEN)
    (ht : now < cb.nextAttempt) :
    execute opts now cb fnOutcome =
      { result := .error .circuitOpen, cb := cb, invoked := false } := by
  unfold execute openGate
  rw [if_pos h, if_pos ht]

theorem reset_eq (opts : CircuitBreakerOptions) (now : Nat)
    (cb : CircuitBreaker) :
    reset opts now cb =
      { state := .CLOSED, failureCount := 0, nextAttempt := cb.nextAttempt,
        circuitResetTimeout := none } := by
  unfold reset transitionToState
  by_cases h : CircuitBreakerState.CLOSED = cb.state
  · simp [← h]
  · simp [h]

theorem recordFailure_halfopen (opts : CircuitBreakerOptions) (now : Nat)
    (cb : CircuitBreaker) (h : cb.state = .HALF_OPEN) :
    recordFailure opts now cb =
      { state := .OPEN, failureCount := cb.failureCount + 1,
        nextAttempt := now + opts.resetTimeout,
        circuitResetTimeout := some (now + opts.resetTimeout) } := by
  simp only [recordFailure, h, if_pos]
  rw [transitionToState_to_open]
  simp [h]

theorem execute_halfopen_ok (opts : CircuitBreakerOptions) (now : Nat)
    (cb : CircuitBreaker) (v : α) (h : cb.state = .HALF_OPEN) :
    execute (ε := ε) opts now cb (.ok v) =
      { result := .ok v,
        cb := { state := .CLOSED, failureCount := 0,
                nextAttempt := cb.nextAttempt, circuitResetTimeout := none },
        invoked := true } := by
  unfold execute
  rw [openGate_not_open _ _ _ (by simp [h]), ]
  simp [h, reset_eq]

theorem execute_halfopen_err (opts : CircuitBreakerOptions) (now : Nat)
    (cb : CircuitBreaker) (e : ε) (h : cb.state = .HALF_OPEN) :
    execute (α := α) opts now cb (.error e) =
      { result := .error (.opError e),
        cb := { state := .OPEN, failureCount := cb.failureCount + 1,
                nextAttempt := now + opts.resetTimeout,
                circuitResetTimeout := some (now + opts.resetTimeout) },
        invoked := true } := by
  unfold execute
  rw [openGate_not_open _ _ _ (by simp [h])]
  simp [recordFailure_halfopen _ _ _ h]

theorem recordFailure_failureCount (opts : CircuitBreakerOptions) (now : Nat)
    (cb : CircuitBreaker) :
    (recordFailure opts now cb).failureCount = cb.failureCount + 1 := by
  simp only [recordFailure]
  split
  · simp [transitionToState_failureCount]
  · split
    · simp [transitionToState_failureCount]
    · rfl

theorem openGate_some_failureCount (opts : CircuitBreakerOptions) (now : Nat)
    (cb cb1 : CircuitBreaker) (h : openGate opts now cb = some cb1) :
    cb1.failureCount = cb.failureCount := by
  unfold openGate at h
  split at h
  · split at h
    · cases h
    · cases h
      exact transitionToState_failureCount opts now cb .HALF_OPEN
  · cases h
    rfl

/-! ### Claim theorems -/

/-- C9: while CLOSED, a successful call leaves the breaker (in particular its
`failureCount`) entirely unchanged and it stays CLOSED; moreover the failure
count is zeroed only on an explicit transition to CLOSED — whenever an
`execute` call decreases the count, the resulting breaker is CLOSED with
count 0. -/
theorem C9_closed_success_frame :
    (∀ (ε α : Type) (opts : CircuitBreakerOptions) (now : Nat)
       (cb : CircuitBreaker) (v : α),
       cb.state = .CLOSED →
       execute (ε := ε) opts now cb (.ok v) =
         { result := .ok v, cb := cb, invoked := true }) ∧
    (∀ (ε α : Type) (opts : CircuitBreakerOptions) (now : Nat)
       (cb : CircuitBreaker) (fnOutcome : Except ε α),
       (execute opts now cb fnOutcome).cb.failureCount < cb.failureCount →
       (execute opts now cb fnOutcome).cb.state = .CLOSED ∧
       (execute opts now cb fnOutcome).cb.failureCount = 0) := by
  constructor
  · intro ε α opts now cb v h
    exact execute_closed_ok opts now cb v h
  · intro ε α opts now cb fnOutcome hlt
    unfold execute at *
    cases hg : openGate opts now cb with
    | none =>
      rw [hg] at hlt
      simp at hlt
    | some cb1 =>
      have hc1 : cb1.failureCount = cb.failureCount :=
        openGate_some_failureCount opts now cb cb1 hg
      cases fnOutcome with
      | error e =>
        rw [hg] at hlt
        simp only [recordFailure_failureCount] at hlt
        exact absurd hlt (by omega)
      | ok v =>
        rw [hg] at hlt
        by_cases hh : cb1.state = .HALF_OPEN
        · simp [hg, hh, reset_eq]
        · simp only [if_neg hh] at hlt
          exact absurd hlt (by omega)

/-- Witness for C9: a CLOSED breaker with `failureCount = 2` is untouched by a
successful call, and the only count-decreasing step (a HALF_OPEN success)
lands on CLOSED with count 0. -/
theorem C9_closed_success_frame_witness :
    (execute (ε := String) defaultCircuitBreakerOptions 3
        { state := .CLOSED, failureCount := 2, nextAttempt := 0,
          circuitResetTimeout := none } (.ok (7 : Nat)) =
      { result := .ok 7,
        cb := { state := .CLOSED, failureCount := 2, nextAttempt := 0,
                circuitResetTimeout := none },
        invoked := true }) ∧
    ((execute (ε := String) defaultCircuitBreakerOptions 20
        { state := .HALF_OPEN, failureCount := 3, nextAttempt := 10,
          circuitResetTimeout := some 10 } (.ok (1 : Nat))).cb.state =
        .CLOSED ∧
     (execute (ε := String) defaultCircuitBreakerOptions 20
        { state := .HALF_OPEN, failureCount := 3, nextAttempt := 10,
          circuitResetTimeout := some 10 } (.ok (1 : Nat))).cb.failureCount =
        0) :=
  ⟨C9_closed_success_frame.1 String Nat defaultCircuitBreakerOptions 3
      { state := .CLOSED, failureCount := 2, nextAttempt := 0,
        circuitResetTimeout := none } 7 rfl,
   C9_closed_success_frame.2 String Nat defaultCircuitBreakerOptions 20
      { state := .HALF_OPEN, failureCount := 3, nextAttempt := 10,
        circuitResetTimeout := some 10 } (.ok 1) (by decide)⟩

/-- C4: a HALF_OPEN trial that succeeds transitions the breaker to CLOSED
with `failureCount` reset to 0 and the pending scheduled transition cancelled
(`circuitResetTimeout = none`); a HALF_OPEN trial that fails transitions the
breaker straight back to OPEN — a single failure suffices. -/
theorem C4_half_open_trial :
    ∀ (ε α : Type) (opts : CircuitBreakerOptions) (now : Nat)
      (cb : CircuitBreaker) (v : α) (e : ε),
      cb.state = .HALF_OPEN →
      (execute (ε := ε) opts now cb (.ok v) =
        { result := .ok v,
          cb := { state := .CLOSED, failureCount := 0,
                  nextAttempt := cb.nextAttempt, circuitResetTimeout := none },
          invoked := true }) ∧
      (execute (α := α) opts now cb (.error e) =
        { result := .error (.opError e),
          cb := { state := .OPEN, failureCount := cb.failureCount + 1,
                  nextAttempt := now + opts.resetTimeout,
                  circuitResetTimeout := some (now + opts.resetTimeout) },
          invoked := true }) := by
  intro ε α opts now cb v e h
  exact ⟨execute_halfopen_ok opts now cb v h,
    execute_halfopen_err opts now cb e h⟩

/-- Witness for C4: a HALF_OPEN breaker with 3 recorded failures and a
pending timer, probed at time 40 with the default options. -/
theorem C4_half_open_trial_witness :
    (execute (ε := String) defaultCircuitBreakerOptions 40
        { state := .HALF_OPEN, failureCount := 3, nextAttempt := 50,
          circuitResetTimeout := some 50 } (.ok (9 : Nat)) =
      { result := .ok 9,
        cb := { state := .CLOSED, failureCount := 0, nextAttempt := 50,
                circuitResetTimeout := none },
        invoked := true }) ∧
    (execute (α := Nat) defaultCircuitBreakerOptions 40
        { state := .HALF_OPEN, failureCount := 3, nextAttempt := 50,
          circuitResetTimeout := some 50 } (.error "boom") =
      { result := .error (.opError "boom"),
        cb := { state := .OPEN, failureCount := 4, nextAttempt := 30040,
                circuitResetTimeout := some 30040 },
        invoked := true }) :=
  C4_half_open_trial String Nat defaultCircuitBreakerOptions 40
    { state := .HALF_OPEN, failureCount := 3, nextAttempt := 50,
      circuitResetTimeout := some 50 } 9 "boom" rfl

/-- C3: a breaker that transitioned to OPEN at time `T` has
`nextAttempt = T + resetTimeout`; any call strictly before that instant is
rejected with the circuit-open error without invoking the operation, and a
call at or after it first transitions the breaker to HALF_OPEN and then
invokes the operation as the trial call. -/
theorem C3_open_reset_timing :
    ∀ (ε α : Type) (opts : CircuitBreakerOptions) (cb cbO : CircuitBreaker)
      (T t : Nat) (fnOutcome : Except ε α),
      cb.state ≠ .OPEN →
      cbO = transitionToState opts T cb .OPEN →
      (cbO.state = .OPEN ∧ cbO.nextAttempt = T + opts.resetTimeout) ∧
      (t < T + opts.resetTimeout →
        execute opts t cbO fnOutcome =
          { result := .error .circuitOpen, cb := cbO, invoked := false }) ∧
      (T + opts.resetTimeout ≤ t →
        openGate opts t cbO = some (transitionToState opts t cbO .HALF_OPEN) ∧
        (transitionToState opts t cbO .HALF_OPEN).state = .HALF_OPEN ∧
        (execute opts t cbO fnOutcome).invoked = true) := by
  intro ε α opts cb cbO T t fn hne hO
  subst hO
  rw [transitionToState_to_open opts T cb hne]
  refine ⟨⟨rfl, rfl⟩, ?_, ?_⟩
  · intro hlt
    exact execute_open_rejected _ _ _ _ rfl hlt
  · intro hge
    refine ⟨?_, transitionToState_state _ _ _ _, ?_⟩
    · unfold openGate
      rw [if_pos rfl, if_neg (Nat.not_lt.mpr hge)]
    · unfold execute openGate
      rw [if_pos rfl, if_neg (Nat.not_lt.mpr hge)]
      cases fn <;> rfl

/-- Witness for C3: default options (`resetTimeout = 30000`), breaker opened
at `T = 5`, probed at 30004 (rejected, operation not invoked) and at 30005
(operation invoked as the HALF_OPEN trial). -/
theorem C3_open_reset_timing_witness :
    (execute (ε := String) defaultCircuitBreakerOptions 30004
        { state := .OPEN, failureCount := 0, nextAttempt := 30005,
          circuitResetTimeout := some 30005 } (.ok (1 : Nat)) =
      { result := .error .circuitOpen,
        cb := { state := .OPEN, failureCount := 0, nextAttempt := 30005,
                circuitResetTimeout := some 30005 },
        invoked := false }) ∧
    (execute (ε := String) defaultCircuitBreakerOptions 30005
        { state := .OPEN, failureCount := 0, nextAttempt := 30005,
          circuitResetTimeout := some 30005 } (.ok (1 : Nat))).invoked =
      true :=
  ⟨(C3_open_reset_timing String Nat defaultCircuitBreakerOptions
      (CircuitBreaker.init 0)
      { state := .OPEN, failureCount := 0, nextAttempt := 30005,
        circuitResetTimeout := some 30005 } 5 30004 (.ok 1)
      (by decide) (by decide)).2.1 (by decide),
   ((C3_open_reset_timing String Nat defaultCircuitBreakerOptions
      (CircuitBreaker.init 0)
      { state := .OPEN, failureCount := 0, nextAttempt := 30005,
        circuitResetTimeout := some 30005 } 5 30005 (.ok 1)
      (by decide) (by decide)).2.2 (by decide)).2.2⟩

/-- C1: with a positive `failureThreshold`, every failed call through a
CLOSED breaker increments `failureCount`, and the breaker ends up OPEN
exactly when the incremented count reaches the threshold; with
`failureThreshold = 5`, after five consecutive failures the sixth call
(arriving before the reset timeout) is rejected with the circuit-open error,
the operation not being invoked and the breaker left unchanged. -/
theorem C1_closed_failure_threshold :
    (∀ (ε α : Type) (opts : CircuitBreakerOptions) (now : Nat)
       (cb : CircuitBreaker) (e : ε),
       0 < opts.failureThreshold → cb.state = .CLOSED →
       ((execute (α := α) opts now cb (.error e)).cb.failureCount =
          cb.failureCount + 1 ∧
        ((execute (α := α) opts now cb (.error e)).cb.state = .OPEN ↔
          opts.failureThreshold ≤ cb.failureCount + 1))) ∧
    (∀ (ε α : Type) (opts : CircuitBreakerOptions)
       (n0 t1 t2 t3 t4 t5 t6 : Nat) (e1 e2 e3 e4 e5 : ε)
       (fnOutcome : Except ε α),
       opts.failureThreshold = 5 →
       t6 < t5 + opts.resetTimeout →
       execute opts t6
         (runCalls (α := α) opts (CircuitBreaker.init n0)
           [(t1, .error e1), (t2, .error e2), (t3, .error e3),
            (t4, .error e4), (t5, .error e5)]) fnOutcome =
         { result := .error .circuitOpen,
           cb := runCalls (α := α) opts (CircuitBreaker.init n0)
             [(t1, .error e1), (t2, .error e2), (t3, .error e3),
              (t4, .error e4), (t5, .error e5)],
           invoked := false }) := by
  constructor
  · intro ε α opts now cb e hpos h
    rw [execute_closed_err opts now cb e h]
    by_cases hth : opts.failureThreshold ≤ cb.failureCount + 1
    · rw [recordFailure_closed_trip opts now cb h hth]
      simpa using hth
    · rw [recordFailure_closed_low opts now cb h (by omega)]
      simp [h, hth]
  · intro ε α opts n0 t1 t2 t3 t4 t5 t6 e1 e2 e3 e4 e5 fn h5 h6
    have hrun : runCalls (α := α) opts (CircuitBreaker.init n0)
        [(t1, .error e1), (t2, .error e2), (t3, .error e3),
         (t4, .error e4), (t5, .error e5)] =
        { state := .OPEN, failureCount := 5,
          nextAttempt := t5 + opts.resetTimeout,
          circuitResetTimeout := some (t5 + opts.resetTimeout) } := by
      simp [runCalls, CircuitBreaker.init, execute, openGate, recordFailure,
        transitionToState, h5]
    rw [hrun]
    exact execute_open_rejected _ _ _ _ rfl h6

/-- Witness for C1: default options (threshold 5), a failure at time 3 on a
CLOSED breaker with two prior failures, and the concrete five-failures-then-
rejection run with all calls at times 1..6. -/
theorem C1_closed_failure_threshold_witness :
    ((execute (α := Nat) defaultCircuitBreakerOptions 3
        { state := .CLOSED, failureCount := 2, nextAttempt := 0,
          circuitResetTimeout := none } (.error "boom")).cb.failureCount =
        3 ∧
     ((execute (α := Nat) defaultCircuitBreakerOptions 3
        { state := .CLOSED, failureCount := 2, nextAttempt := 0,
          circuitResetTimeout := none } (.error "boom")).cb.state = .OPEN ↔
        5 ≤ 3)) ∧
    (execute (ε := String) defaultCircuitBreakerOptions 6
        (runCalls (ε := String) (α := Nat) defaultCircuitBreakerOptions
          (CircuitBreaker.init 0)
          [(1, .error "e1"), (2, .error "e2"), (3, .error "e3"),
           (4, .error "e4"), (5, .error "e5")]) (.ok (7 : Nat)) =
      { result := .error .circuitOpen,
        cb := runCalls (ε := String) (α := Nat) defaultCircuitBreakerOptions
          (CircuitBreaker.init 0)
          [(1, .error "e1"), (2, .error "e2"), (3, .error "e3"),
           (4, .error "e4"), (5, .error "e5")],
        invoked := false }) :=
  ⟨C1_closed_failure_threshold.1 String Nat defaultCircuitBreakerOptions 3
      { state := .CLOSED, failureCount := 2, nextAttempt := 0,
        circuitResetTimeout := none } "boom" (by decide) rfl,
   C1_closed_failure_threshold.2 String Nat defaultCircuitBreakerOptions
      0 1 2 3 4 5 6 "e1" "e2" "e3" "e4" "e5" (.ok 7) rfl (by decide)⟩

end Zally

namespace Zally

/-- Length of the longest run of consecutive failing calls in a list of
call outcomes (the "consecutive failures" reading of the spec's
`failureThreshold` description). -/
def longestFailureRun (outcomes : List (Except ε α)) : Nat :=
  (outcomes.foldl
    (fun (p : Nat × Nat) r =>
      match r with
      | .error _ => (p.1 + 1, max p.2 (p.1 + 1))
      | .ok _ => (0, p.2))
    (0, 0)).2

/-- Number of failing calls in a call sequence. -/
def failedCallCount (calls : List (Nat × Except ε α)) : Nat :=
  calls.countP (fun p =>
    match p.2 with
    | .error _ => true
    | .ok _ => false)

theorem runCalls_cons (opts : CircuitBreakerOptions) (cb : CircuitBreaker)
    (t : Nat) (r : Except ε α) (tl : List (Nat × Except ε α)) :
    runCalls opts cb ((t, r) :: tl) =
      runCalls opts (execute opts t cb r).cb tl := rfl

/-- Counterexample for C8: with `failureThreshold = 2`, the call sequence
fail–success–fail contains no run of 2 consecutive failures (the longest run
is 1), yet it trips the breaker to OPEN, because a success while CLOSED does
not reset `failureCount`. -/
theorem C8_counterexample :
    longestFailureRun [Except.error "e1", Except.ok (0 : Nat),
      Except.error "e2"] = 1 ∧
    (runCalls { failureThreshold := 2, resetTimeout := 1000, name := "default" }
      (CircuitBreaker.init 0)
      [(1, .error "e1"), (2, .ok (0 : Nat)), (3, .error "e2")]).state =
      .OPEN := by
  decide

/-- C8 (amended): while CLOSED, a failing call trips the breaker to OPEN
exactly when the cumulative `failureCount` (which successes do not reset)
reaches `failureThreshold`; any call sequence through a CLOSED breaker whose
total number of failures keeps the cumulative count below the threshold
leaves the breaker CLOSED, with the count equal to the accumulated number of
failures. -/
theorem C8_cumulative_failures_trip :
    (∀ (ε α : Type) (opts : CircuitBreakerOptions) (now : Nat)
       (cb : CircuitBreaker) (e : ε),
       cb.state = .CLOSED →
       ((execute (α := α) opts now cb (.error e)).cb.state = .OPEN ↔
         opts.failureThreshold ≤ cb.failureCount + 1)) ∧
    (∀ (ε α : Type) (opts : CircuitBreakerOptions) (cb : CircuitBreaker)
       (calls : List (Nat × Except ε α)),
       cb.state = .CLOSED →
       cb.failureCount + failedCallCount calls < opts.failureThreshold →
       (runCalls opts cb calls).state = .CLOSED ∧
       (runCalls opts cb calls).failureCount =
         cb.failureCount + failedCallCount calls) := by
  constructor
  · intro ε α opts now cb e h
    rw [execute_closed_err opts now cb e h]
    by_cases hth : opts.failureThreshold ≤ cb.failureCount + 1
    · rw [recordFailure_closed_trip opts now cb h hth]
      simpa using hth
    · rw [recordFailure_closed_low opts now cb h (by omega)]
      simp [h, hth]
  · intro ε α opts cb calls
    induction calls generalizing cb with
    | nil =>
      intro h hlt
      exact ⟨h, by simp [runCalls, failedCallCount]⟩
    | cons hd tl ih =>
      intro h hlt
      obtain ⟨t, r⟩ := hd
      cases r with
      | ok v =>
        rw [runCalls_cons, execute_closed_ok opts t cb v h]
        have hcnt : failedCallCount (((t : Nat), (Except.ok v : Except ε α)) :: tl) =
            failedCallCount tl := by
          simp [failedCallCount, List.countP_cons]
        rw [hcnt] at hlt ⊢
        exact ih cb h hlt
      | error e =>
        have hcnt : failedCallCount (((t : Nat), (Except.error e : Except ε α)) :: tl) =
            failedCallCount tl + 1 := by
          simp [failedCallCount, List.countP_cons]
        rw [hcnt] at hlt ⊢
        rw [runCalls_cons, execute_closed_err opts t cb e h]
        rw [recordFailure_closed_low opts t cb h (by omega)]
        have := ih { cb with failureCount := cb.failureCount + 1 }
          (by simp [h]) (by simpa using (by omega :
            cb.failureCount + 1 + failedCallCount tl < opts.failureThreshold))
        refine ⟨this.1, ?_⟩
        rw [this.2]
        simp
        omega

/-- Witness for C8's amended statement: with the default threshold 5, a
single failure on a breaker with 4 prior failures trips it, and the
fail–success–fail–success sequence from a fresh breaker (2 failures total)
leaves it CLOSED with `failureCount = 2`. -/
theorem C8_cumulative_failures_trip_witness :
    ((execute (α := Nat) defaultCircuitBreakerOptions 9
        { state := .CLOSED, failureCount := 4, nextAttempt := 0,
          circuitResetTimeout := none } (.error "boom")).cb.state = .OPEN ↔
      5 ≤ 5) ∧
    ((runCalls (ε := String) (α := Nat) defaultCircuitBreakerOptions
        (CircuitBreaker.init 0)
        [(1, .error "e1"), (2, .ok 0), (3, .error "e2"),
         (4, .ok 0)]).state = .CLOSED ∧
     (runCalls (ε := String) (α := Nat) defaultCircuitBreakerOptions
        (CircuitBreaker.init 0)
        [(1, .error "e1"), (2, .ok 0), (3, .error "e2"),
         (4, .ok 0)]).failureCount = 0 + failedCallCount
          ([(1, .error "e1"), (2, .ok 0), (3, .error "e2"),
            (4, .ok 0)] : List (Nat × Except String Nat))) :=
  ⟨C8_cumulative_failures_trip.1 String Nat defaultCircuitBreakerOptions 9
      { state := .CLOSED, failureCount := 4, nextAttempt := 0,
        circuitResetTimeout := none } "boom" rfl,
   C8_cumulative_failures_trip.2 String Nat defaultCircuitBreakerOptions
      (CircuitBreaker.init 0)
      [(1, .error "e1"), (2, .ok 0), (3, .error "e2"), (4, .ok 0)]
      rfl (by decide)⟩

/-- What a caller observes of one `execute` call: rejected without invoking,
invoked and failed, invoked and succeeded as a HALF_OPEN trial, or invoked
and succeeded in a non-trial state. -/
inductive CallEvent where
  | rejected
  | failed
  | succeededTrial
  | succeededNormal
deriving DecidableEq, Repr

/-- Classifies one `execute` call as a `CallEvent` (the trial check uses the
post-gate state, exactly as `execute` does). -/
def callEvent (opts : CircuitBreakerOptions) (now : Nat) (cb : CircuitBreaker)
    (fnOutcome : Except ε α) : CallEvent :=
  match openGate opts now cb with
  | none => .rejected
  | some cb1 =>
    match fnOutcome with
    | .ok _ => if cb1.state = .HALF_OPEN then .succeededTrial
               else .succeededNormal
    | .error _ => .failed

/-- The events of a whole call sequence, in order. -/
def callEvents (opts : CircuitBreakerOptions) (cb : CircuitBreaker) :
    List (Nat × Except ε α) → List CallEvent
  | [] => []
  | (t, r) :: rest =>
    callEvent opts t cb r :: callEvents opts (execute opts t cb r).cb rest

/-- The number of failed calls since the start of the event list or since
the last successful HALF_OPEN trial, whichever is later. -/
def countFailuresSinceTrialSuccess (events : List CallEvent) : Nat :=
  events.foldl
    (fun acc ev =>
      match ev with
      | .failed => acc + 1
      | .succeededTrial => 0
      | _ => acc) 0

theorem execute_failureCount_event (opts : CircuitBreakerOptions) (now : Nat)
    (cb : CircuitBreaker) (r : Except ε α) :
    (execute opts now cb r).cb.failureCount =
      match callEvent opts now cb r with
      | .failed => cb.failureCount + 1
      | .succeededTrial => 0
      | _ => cb.failureCount := by
  unfold execute callEvent
  cases hg : openGate opts now cb with
  | none => rfl
  | some cb1 =>
    have hc1 := openGate_some_failureCount opts now cb cb1 hg
    cases r with
    | error e => simp [recordFailure_failureCount, hc1]
    | ok v =>
      by_cases hh : cb1.state = .HALF_OPEN
      · simp [hh, reset_eq]
      · simp [hh, hc1]

theorem runCalls_failureCount_foldl (opts : CircuitBreakerOptions) :
    ∀ (calls : List (Nat × Except ε α)) (cb : CircuitBreaker),
    (runCalls opts cb calls).failureCount =
      (callEvents opts cb calls).foldl
        (fun acc ev =>
          match ev with
          | .failed => acc + 1
          | .succeededTrial => 0
          | _ => acc)
        cb.failureCount := by
  intro calls
  induction calls with
  | nil => intro cb; rfl
  | cons hd tl ih =>
    intro cb
    obtain ⟨t, r⟩ := hd
    rw [runCalls_cons, callEvents, List.foldl_cons, ih,
      ← execute_failureCount_event opts t cb r]

/-- C10: over any `execute` call sequence from a fresh breaker, the exposed
failure count equals the number of failed calls since construction or since
the last successful HALF_OPEN trial; every count decrease is a successful
HALF_OPEN trial (landing at 0); a failed HALF_OPEN trial also increments the
count before re-opening, so the count can exceed the threshold — concretely,
with `failureThreshold = 1` two failures around a failed trial leave the
count at 2 > 1. -/
theorem C10_failure_count_accounting :
    (∀ (ε α : Type) (opts : CircuitBreakerOptions) (n0 : Nat)
       (calls : List (Nat × Except ε α)),
       (runCalls opts (CircuitBreaker.init n0) calls).failureCount =
         countFailuresSinceTrialSuccess
           (callEvents opts (CircuitBreaker.init n0) calls)) ∧
    (∀ (ε α : Type) (opts : CircuitBreakerOptions) (now : Nat)
       (cb : CircuitBreaker) (fnOutcome : Except ε α),
       (execute opts now cb fnOutcome).cb.failureCount < cb.failureCount →
       callEvent opts now cb fnOutcome = .succeededTrial ∧
       (execute opts now cb fnOutcome).cb.failureCount = 0) ∧
    (∀ (ε α : Type) (opts : CircuitBreakerOptions) (now : Nat)
       (cb : CircuitBreaker) (e : ε),
       cb.state = .HALF_OPEN →
       (execute (α := α) opts now cb (.error e)).cb.failureCount =
         cb.failureCount + 1) ∧
    ((runCalls (ε := String) (α := Nat)
        { failureThreshold := 1, resetTimeout := 1000, name := "default" }
        (CircuitBreaker.init 0)
        [(1, .error "e1"), (1001, .error "e2")]).failureCount = 2 ∧
     1 < 2) := by
  refine ⟨?_, ?_, ?_, by decide⟩
  · intro ε α opts n0 calls
    exact runCalls_failureCount_foldl opts calls (CircuitBreaker.init n0)
  · intro ε α opts now cb fnOutcome hlt
    have hev := execute_failureCount_event opts now cb fnOutcome
    cases hcase : callEvent opts now cb fnOutcome
    case rejected =>
      rw [hcase] at hev
      simp only at hev
      exact absurd (hev ▸ hlt) (Nat.lt_irrefl _)
    case failed =>
      rw [hcase] at hev
      simp only at hev
      exact absurd (Nat.lt_of_succ_lt (hev ▸ hlt)) (Nat.lt_irrefl _)
    case succeededTrial =>
      rw [hcase] at hev
      simp only at hev
      exact ⟨rfl, hev⟩
    case succeededNormal =>
      rw [hcase] at hev
      simp only at hev
      exact absurd (hev ▸ hlt) (Nat.lt_irrefl _)
  · intro ε α opts now cb e h
    rw [execute_halfopen_err opts now cb e h]

/-- Witness for C10: a concrete two-call run from a fresh breaker, a concrete
count-decreasing HALF_OPEN success, and a failed HALF_OPEN trial on a breaker
with 3 recorded failures. -/
theorem C10_failure_count_accounting_witness :
    ((runCalls (ε := String) (α := Nat) defaultCircuitBreakerOptions
        (CircuitBreaker.init 0)
        [(1, .error "e1"), (2, .ok 0)]).failureCount =
      countFailuresSinceTrialSuccess
        (callEvents defaultCircuitBreakerOptions (CircuitBreaker.init 0)
          ([(1, .error "e1"), (2, .ok 0)] : List (Nat × Except String Nat)))) ∧
    (callEvent (α := Nat) defaultCircuitBreakerOptions 20
        { state := .HALF_OPEN, failureCount := 3, nextAttempt := 10,
          circuitResetTimeout := some 10 } (.ok (1 : Nat) : Except String Nat) =
        .succeededTrial ∧
     (execute defaultCircuitBreakerOptions 20
        { state := .HALF_OPEN, failureCount := 3, nextAttempt := 10,
          circuitResetTimeout := some 10 }
        (.ok (1 : Nat) : Except String Nat)).cb.failureCount = 0) ∧
    (execute defaultCircuitBreakerOptions 20
        { state := .HALF_OPEN, failureCount := 3, nextAttempt := 10,
          circuitResetTimeout := some 10 }
        (.error "boom" : Except String Nat)).cb.failureCount = 3 + 1 :=
  ⟨C10_failure_count_accounting.1 String Nat defaultCircuitBreakerOptions 0
      [(1, .error "e1"), (2, .ok 0)],
   C10_failure_count_accounting.2.1 String Nat defaultCircuitBreakerOptions 20
      { state := .HALF_OPEN, failureCount := 3, nextAttempt := 10,
        circuitResetTimeout := some 10 } (.ok 1) (by decide),
   C10_failure_count_accounting.2.2.1 String Nat defaultCircuitBreakerOptions
      20
      { state := .HALF_OPEN, failureCount := 3, nextAttempt := 10,
        circuitResetTimeout := some 10 } "boom" rfl⟩

/-! ### RetryManager lemmas -/

theorem retryLoop_all_fail (fn : Nat → Except ε α) (errs : Nat → ε)
    (hfn : ∀ k, fn k = .error (errs k)) :
    ∀ (remaining attempt : Nat),
    retryLoop fn attempt remaining =
      (.error (errs (attempt + remaining)), remaining + 1) := by
  intro remaining
  induction remaining with
  | zero =>
    intro attempt
    simp [retryLoop, hfn attempt]
  | succ r ih =>
    intro attempt
    have hstep : attempt + 1 + r = attempt + (r + 1) := by omega
    simp [retryLoop, hfn attempt, ih (attempt + 1), hstep]

theorem retryLoop_first_ok (fn : Nat → Except ε α) (v : α)
    (attempt r : Nat) (h : fn attempt = .ok v) :
    retryLoop fn attempt r = (.ok v, 1) := by
  cases r <;> simp [retryLoop, h]

/-- C2: an operation that fails on every attempt is invoked exactly
`maxRetries + 1` times and the manager rejects with the error of the final
attempt (0-based attempt index `maxRetries`), unchanged; an operation that
succeeds on its first attempt is invoked exactly once and its value is
returned, whatever `maxRetries` is. -/
theorem C2_retry_invocation_counts :
    (∀ (ε α : Type) (opts : RetryOptions) (fn : Nat → Except ε α)
       (errs : Nat → ε),
       (∀ k, fn k = .error (errs k)) →
       executeWithRetry opts fn =
         (.error (errs opts.maxRetries), opts.maxRetries + 1)) ∧
    (∀ (ε α : Type) (opts : RetryOptions) (fn : Nat → Except ε α) (v : α),
       fn 0 = .ok v →
       executeWithRetry opts fn = (.ok v, 1)) := by
  constructor
  · intro ε α opts fn errs hfn
    unfold executeWithRetry
    simpa using retryLoop_all_fail fn errs hfn opts.maxRetries 0
  · intro ε α opts fn v h
    unfold executeWithRetry
    exact retryLoop_first_ok fn v 0 opts.maxRetries h

/-- Witness for C2: with the default `maxRetries = 3`, an always-failing
operation (error message = attempt index) is invoked 4 times and the last
error "3" is propagated; an immediately succeeding operation is invoked
once. -/
theorem C2_retry_invocation_counts_witness :
    executeWithRetry defaultRetryOptions
        (fun k => (Except.error (toString k) : Except String Nat)) =
      (.error (toString 3), 3 + 1) ∧
    executeWithRetry defaultRetryOptions
        (fun _ => (Except.ok 7 : Except String Nat)) = (.ok 7, 1) :=
  ⟨C2_retry_invocation_counts.1 String Nat defaultRetryOptions
      (fun k => .error (toString k)) toString (fun _ => rfl),
   C2_retry_invocation_counts.2 String Nat defaultRetryOptions
      (fun _ => .ok 7) 7 rfl⟩

/-- C6: composing `circuitBreaker.execute (() => retryManager.executeWithRetry
operation)` with the breaker CLOSED, `failureThreshold > 1`,
`maxRetries ≥ 2`, and an operation failing exactly twice before succeeding:
the retry manager absorbs both failures (3 invocations, overall success) and
the breaker, seeing only the final success, returns the value with its state
— in particular `failureCount` — completely unchanged. -/
theorem C6_breaker_observes_final_outcome :
    ∀ (ε α : Type) (bopts : CircuitBreakerOptions) (ropts : RetryOptions)
      (cb : CircuitBreaker) (now : Nat) (fn : Nat → Except ε α)
      (e0 e1 : ε) (v : α),
      cb.state = .CLOSED → 1 < bopts.failureThreshold →
      2 ≤ ropts.maxRetries →
      fn 0 = .error e0 → fn 1 = .error e1 → fn 2 = .ok v →
      executeWithRetry ropts fn = (.ok v, 3) ∧
      execute bopts now cb (executeWithRetry ropts fn).1 =
        { result := .ok v, cb := cb, invoked := true } := by
  intro ε α bopts ropts cb now fn e0 e1 v hcb hth hmr h0 h1 h2
  have hrun : executeWithRetry ropts fn = (.ok v, 3) := by
    obtain ⟨m, hm⟩ := Nat.exists_eq_add_of_le hmr
    have hm2 : ropts.maxRetries = m + 2 := by omega
    unfold executeWithRetry
    rw [hm2]
    simp [retryLoop, h0, h1, retryLoop_first_ok fn v 2 m h2]
  refine ⟨hrun, ?_⟩
  rw [hrun]
  exact execute_closed_ok bopts now cb v hcb

/-- Witness for C6: default options (`maxRetries = 3`, threshold 5), a fresh
breaker, and an operation failing on attempts 0 and 1 then returning 42. -/
theorem C6_breaker_observes_final_outcome_witness :
    executeWithRetry defaultRetryOptions
        (fun k => if k < 2 then (Except.error "transient" : Except String Nat)
                  else .ok 42) = (.ok 42, 3) ∧
    execute defaultCircuitBreakerOptions 9 (CircuitBreaker.init 0)
        (executeWithRetry defaultRetryOptions
          (fun k =>
            if k < 2 then (Except.error "transient" : Except String Nat)
            else .ok 42)).1 =
      { result := .ok 42, cb := CircuitBreaker.init 0, invoked := true } :=
  C6_breaker_observes_final_outcome String Nat defaultCircuitBreakerOptions
    defaultRetryOptions (CircuitBreaker.init 0) 9
    (fun k => if k < 2 then .error "transient" else .ok 42) "transient"
    "transient" 42 rfl (by decide) (by decide) rfl rfl rfl

/-- Counterexample for C5: with `initialDelayMs = 10`, `backoffFactor = 2`,
`maxDelayMs = 10000`, jitter enabled and a `Math.random()` draw of `0.02`
(jitter factor `0.76`), the delay before retry attempt 1 is
`⌊10 × 0.76⌋ = 7`, strictly below `0.75 × 10 = 7.5`: flooring pushes the
delay below the claimed `[0.75, 1.25] ×` capped band. -/
theorem C5_counterexample :
    calculateDelay
      { maxRetries := 3, initialDelayMs := 10, maxDelayMs := 10000,
        backoffFactor := 2, jitter := true } 1 (1/50) = 7 ∧
    min ((10 : ℚ) * 2 ^ ((1 : Nat) - 1)) 10000 = 10 ∧
    ¬ ((3/4 : ℚ) * 10 ≤ 7) := by
  refine ⟨?_, by norm_num, by norm_num⟩
  norm_num [calculateDelay]

/-- C5 (amended): with jitter disabled the delay before retry attempt `k`
is exactly `min(initialDelayMs × backoffFactor^(k-1), maxDelayMs)`; with
jitter enabled it is `⌊capped × (0.75 + rand × 0.5)⌋` for the random draw
`rand ∈ [0, 1)`, hence lies in the half-open interval
`(0.75 × capped − 1, 1.25 × capped]` — flooring can undershoot the lower
edge of the `[0.75, 1.25] × capped` band by strictly less than 1 ms. -/
theorem C5_delay_computation :
    ∀ (opts : RetryOptions) (k : Nat) (rand : ℚ),
      0 ≤ opts.initialDelayMs → 0 ≤ opts.maxDelayMs →
      0 ≤ opts.backoffFactor →
      (opts.jitter = false →
        calculateDelay opts k rand =
          min (opts.initialDelayMs * opts.backoffFactor ^ (k - 1))
            opts.maxDelayMs) ∧
      (opts.jitter = true → 0 ≤ rand → rand < 1 →
        calculateDelay opts k rand =
          ((⌊(min (opts.initialDelayMs * opts.backoffFactor ^ (k - 1))
              opts.maxDelayMs) * (3/4 + rand * (1/2))⌋ : ℤ) : ℚ) ∧
        (3/4 : ℚ) *
            min (opts.initialDelayMs * opts.backoffFactor ^ (k - 1))
              opts.maxDelayMs - 1 < calculateDelay opts k rand ∧
        calculateDelay opts k rand ≤
          (5/4 : ℚ) *
            min (opts.initialDelayMs * opts.backoffFactor ^ (k - 1))
              opts.maxDelayMs) := by
  intro opts k rand hinit hmax hbf
  have hcap : (0 : ℚ) ≤
      min (opts.initialDelayMs * opts.backoffFactor ^ (k - 1))
        opts.maxDelayMs :=
    le_min (mul_nonneg hinit (pow_nonneg hbf _)) hmax
  constructor
  · intro hj
    simp [calculateDelay, hj]
  · intro hj hr0 hr1
    have hdelay : calculateDelay opts k rand =
        ((⌊(min (opts.initialDelayMs * opts.backoffFactor ^ (k - 1))
            opts.maxDelayMs) * (3/4 + rand * (1/2))⌋ : ℤ) : ℚ) := by
      simp [calculateDelay, hj]
    set capped := min (opts.initialDelayMs * opts.backoffFactor ^ (k - 1))
      opts.maxDelayMs with hcapdef
    refine ⟨hdelay, ?_, ?_⟩
    · rw [hdelay]
      have h1 : (3/4 : ℚ) * capped ≤ capped * (3/4 + rand * (1/2)) := by
        nlinarith
      have h2 : capped * (3/4 + rand * (1/2)) - 1 <
          ((⌊capped * (3/4 + rand * (1/2))⌋ : ℤ) : ℚ) :=
        Int.sub_one_lt_floor _
      linarith
    · rw [hdelay]
      have h1 : capped * (3/4 + rand * (1/2)) ≤ (5/4 : ℚ) * capped := by
        nlinarith
      have h2 : ((⌊capped * (3/4 + rand * (1/2))⌋ : ℤ) : ℚ) ≤
          capped * (3/4 + rand * (1/2)) :=
        Int.floor_le _
      linarith

/-- Witness for C5's amended statement: without jitter, attempt 2 with
`initialDelayMs = 100, backoffFactor = 2` gives exactly 200 ms; with the
default options (jitter on), attempt 1 with `rand = 1/2` gives
`⌊500 × 1⌋ = 500`, inside the proved bounds. -/
theorem C5_delay_computation_witness :
    (calculateDelay
        { maxRetries := 2, initialDelayMs := 100, maxDelayMs := 5000,
          backoffFactor := 2, jitter := false } 2 0 =
      min ((100 : ℚ) * 2 ^ ((2 : Nat) - 1)) 5000) ∧
    (calculateDelay defaultRetryOptions 1 (1/2) =
        ((⌊(min ((500 : ℚ) * 2 ^ ((1 : Nat) - 1)) 5000) *
            (3/4 + (1/2 : ℚ) * (1/2))⌋ : ℤ) : ℚ) ∧
      (3/4 : ℚ) * min ((500 : ℚ) * 2 ^ ((1 : Nat) - 1)) 5000 - 1 <
        calculateDelay defaultRetryOptions 1 (1/2) ∧
      calculateDelay defaultRetryOptions 1 (1/2) ≤
        (5/4 : ℚ) * min ((500 : ℚ) * 2 ^ ((1 : Nat) - 1)) 5000) :=
  ⟨(C5_delay_computation
      { maxRetries := 2, initialDelayMs := 100, maxDelayMs := 5000,
        backoffFactor := 2, jitter := false } 2 0
      (by norm_num) (by norm_num) (by norm_num)).1 rfl,
   (C5_delay_computation defaultRetryOptions 1 (1/2)
      (by norm_num [defaultRetryOptions]) (by norm_num [defaultRetryOptions])
      (by norm_num [defaultRetryOptions])).2 rfl (by norm_num) (by norm_num)⟩

theorem charsStartWith_append (p s : List Char) :
    charsStartWith p (p ++ s) = true := by
  induction p with
  | nil => rfl
  | cons a as ih => simp [charsStartWith, ih]

theorem charsInclude_of_startsWith (p s : List Char)
    (h : charsStartWith p s = true) : charsInclude p s = true := by
  cases s with
  | nil => simpa [charsInclude] using h
  | cons c cs => simp [charsInclude, h]

/-- Counterexample for C7: the circuit-open rejection is a plain `Error`
distinguished only by its message, and the repository's own discriminator
(`handleError`'s `message.includes('Circuit breaker')`) classifies the
operation failure "Circuit breaker check failed" — which is not a breaker
rejection message — the same way as the genuine rejection, so a caller
using the code's check cannot decide circuit-open versus operation failure
without ambiguity. -/
theorem C7_counterexample :
    handleErrorTreatsAsBreakerOpen "Circuit breaker check failed" = true ∧
    circuitOpenMessage "default" ≠ "Circuit breaker check failed" ∧
    handleErrorTreatsAsBreakerOpen (circuitOpenMessage "default") = true := by
  decide

/-- C7 (amended): the circuit-open rejection is a plain `Error` carrying the
sentinel message `Circuit breaker [name] is open`; the client's `handleError`
recognises breaker rejections by the substring `'Circuit breaker'`, which
matches every breaker rejection message (for any breaker name), but the
distinction is by message convention only — an operation failure whose
message happens to contain the sentinel is classified the same way. -/
theorem C7_breaker_open_sentinel :
    (∀ name : String,
       handleErrorTreatsAsBreakerOpen (circuitOpenMessage name) = true) ∧
    handleErrorTreatsAsBreakerOpen "Circuit breaker check failed" = true := by
  refine ⟨?_, by decide⟩
  intro name
  unfold handleErrorTreatsAsBreakerOpen strIncludes
  have h : (circuitOpenMessage name).toList =
      "Circuit breaker".toList ++
        (" [".toList ++ (name.toList ++ "] is open".toList)) := by
    simp only [circuitOpenMessage, String.toList, String.data_append]
    simp [List.append_assoc]
  rw [h]
  exact charsInclude_of_startsWith _ _ (charsStartWith_append _ _)

end Zally
